import Mathlib

/-!
Shallow embedding of the sample-size calculation engine of the
`sampesize-prev` repository (main script, first document of
`src/unnamed/part_000`).  Numeric code (IEEE doubles in JavaScript) is
modelled over exact arithmetic: table lookups and guards over `ℚ`,
formulas involving `Math.sqrt` over `ℝ` with `Real.sqrt`, `Math.ceil`
as `Int.ceil`.  JavaScript's `x || d` fallback on numbers is modelled
as `if x = 0 then d else x` (all table values and defaults involved are
non-zero, so number truthiness coincides with being non-zero).
-/

/-- Exact power → z table, `Z_MAP` of the source (lines 18-23), together
with the `Z_MAP[p] || 0.842` fallback of `getZBeta` (lines 32-35): exact
match on a table key, default `0.842` otherwise. -/
def getZBeta (p : ℚ) : ℚ :=
  if p = 80 then 0.842 else if p = 81 then 0.878 else
  if p = 82 then 0.915 else if p = 83 then 0.954 else
  if p = 84 then 0.994 else if p = 85 then 1.036 else
  if p = 86 then 1.080 else if p = 87 then 1.126 else
  if p = 88 then 1.175 else if p = 89 then 1.227 else
  if p = 90 then 1.282 else if p = 91 then 1.341 else
  if p = 92 then 1.405 else if p = 93 then 1.476 else
  if p = 94 then 1.555 else if p = 95 then 1.645 else
  if p = 96 then 1.751 else if p = 97 then 1.881 else
  if p = 98 then 2.054 else if p = 99 then 2.326 else
  0.842

/-- Confidence → z table `Z_ALPHA_MAP` (lines 25-30) with the banded
fallback of `getZAlpha` (lines 37-45): exact match on one of the four
keys, otherwise a range approximation. -/
def getZAlpha (c : ℚ) : ℚ :=
  if c = 90 then 1.645 else
  if c = 95 then 1.96 else
  if c = 98 then 2.326 else
  if c = 99 then 2.576 else
  if c < 95 then 1.645 else
  if c < 98 then 1.96 else
  if c < 99 then 2.326 else
  2.576

/-- Prevalence-mode calculator, `MODES.prevalence.calc` (lines 119-143):
`n = 4·P·Q/D²`, finite-population correction when the `fpc` flag is set
and the population is positive, then the 10% dropout inflation
(`n / 0.9`), and a single `Math.ceil` at the very end. -/
def prevalenceCalc (prevalence precision : ℚ) (fpc dropout : Bool)
    (popSize : ℤ) : ℤ :=
  let P := prevalence / 100
  let Q := 1 - P
  let D := precision / 100
  let n0 := 4 * P * Q / (D * D)
  let n1 := if fpc = true ∧ 0 < popSize then n0 / (1 + n0 / (popSize : ℚ)) else n0
  let n2 := if dropout then n1 / 0.9 else n1
  ⌈n2⌉

/-- Preset descending cell sizes of `drawPopulationGrid` (line 961). -/
def PRESET_SIZES : List ℕ := [20, 15, 12, 10, 8, 6, 5, 4, 3]

/-- Dots that fit at a given cell size, `getCapacity` (lines 964-968):
`floor(groupW/cellSize) * floor(groupH/cellSize)`. -/
def getCapacity (groupW groupH : ℚ) (cellSize : ℕ) : ℤ :=
  ⌊groupW / (cellSize : ℚ)⌋ * ⌊groupH / (cellSize : ℚ)⌋

/-- Output of the packing portion of `drawPopulationGrid`. -/
structure GridLayout where
  bestCellSize : ℕ
  scale : ℤ
  sN1 : ℤ
  sN2 : ℤ
  deriving DecidableEq, Repr

/-- Packing portion of `drawPopulationGrid` (lines 970-991): scan the
preset sizes in order (the source's `for ... break` loop is
`List.find?`), take the first — hence largest — size whose capacity
holds `max n1 n2`; if none fits, fall back to cell size 3 with an
integer scale factor `Math.ceil(maxN / getCapacity(3))`; finally
`sN1 = Math.ceil(n1/scale)` and `sN2 = Math.ceil(n2/scale)`. -/
def packGrid (n1 n2 : ℕ) (groupW groupH : ℚ) : GridLayout :=
  let maxN : ℤ := max (n1 : ℤ) (n2 : ℤ)
  let found := PRESET_SIZES.find? fun s => decide (maxN ≤ getCapacity groupW groupH s)
  let bestCellSize : ℕ := found.getD 3
  let scale : ℤ :=
    match found with
    | some _ => 1
    | none => ⌈(maxN : ℚ) / ((getCapacity groupW groupH 3 : ℤ) : ℚ)⌉
  ⟨bestCellSize, scale, ⌈(n1 : ℚ) / (scale : ℚ)⌉, ⌈(n2 : ℚ) / (scale : ℚ)⌉⟩

/-- Geometry wrapper of `drawPopulationGrid` (lines 947-957): the two
group areas are `groupW = ((w - 2·padding) - gap)/2` with `padding = 20`
and `gap = 40`, and `groupH = h - 80`. -/
def drawPopulationGridLayout (n1 n2 : ℕ) (w h : ℚ) : GridLayout :=
  packGrid n1 n2 ((w - 2 * 20 - 40) / 2) (h - 80)

/-- One method's group sizes as returned by `calculateAdvanced`
(lines 91-95): reference-group size `n1`, paired group `n2`, and their
sum. -/
structure GroupEstimate where
  n1 : ℤ
  n2 : ℤ
  total : ℤ

/-- The three estimates returned by `calculateAdvanced`. -/
structure AdvancedResults where
  kelsey : GroupEstimate
  fleiss : GroupEstimate
  fleiss_cc : GroupEstimate

noncomputable section

/-- Pooled proportion `p_avg = (p1 + r·p2) / (1 + r)` (line 53). -/
def p_avg (p1 p2 r : ℝ) : ℝ := (p1 + r * p2) / (1 + r)

/-- The shared comparative estimator `calculateAdvanced` (lines 48-96).
The `ratio` argument is guarded by `parseFloat(ratio) || 1`, the
z-scores come from the lookup tables applied to `(1-alpha)·100` and
`(1-beta)·100`, and the three methods (Kelsey, Fleiss, Fleiss with
continuity correction) are computed exactly as in the source, with the
10% dropout inflation applied to each rounded `n1` before `n2` and
`total` are derived. -/
def calculateAdvanced (p1 p2 r0 : ℝ) (alpha beta : ℚ) (dropout : Bool) :
    AdvancedResults :=
  let r : ℝ := if r0 = 0 then 1 else r0
  let za : ℝ := ((getZAlpha ((1 - alpha) * 100) : ℚ) : ℝ)
  let zb : ℝ := ((getZBeta ((1 - beta) * 100) : ℚ) : ℝ)
  let pavg := p_avg p1 p2 r
  let p1q1 := p1 * (1 - p1)
  let p2q2 := p2 * (1 - p2)
  let pavgqavg := pavg * (1 - pavg)
  let kelseyNum := (za + zb) ^ 2 * pavgqavg * (r + 1)
  let kelseyDen := r * (p1 - p2) ^ 2
  let n1Kelsey : ℤ := ⌈kelseyNum / kelseyDen⌉
  let term1 := za * Real.sqrt ((r + 1) * pavgqavg)
  let term2 := zb * Real.sqrt (r * p1q1 + p2q2)
  let fleissNum := (term1 + term2) ^ 2
  let fleissDen := r * (p1 - p2) ^ 2
  let n1Fleiss : ℤ := ⌈fleissNum / fleissDen⌉
  let n1Uncorrected := fleissNum / fleissDen
  let ccTerm := 2 * (r + 1) / (n1Uncorrected * r * |p1 - p2|)
  let n1CC := n1Uncorrected / 4 * (1 + Real.sqrt (1 + ccTerm)) ^ 2
  let n1FleissCC : ℤ := ⌈n1CC⌉
  let n1KelseyD : ℤ := if dropout then ⌈(n1Kelsey : ℝ) / 0.9⌉ else n1Kelsey
  let n1FleissD : ℤ := if dropout then ⌈(n1Fleiss : ℝ) / 0.9⌉ else n1Fleiss
  let n1FleissCCD : ℤ := if dropout then ⌈(n1FleissCC : ℝ) / 0.9⌉ else n1FleissCC
  ⟨⟨n1KelseyD, ⌈(n1KelseyD : ℝ) * r⌉, n1KelseyD + ⌈(n1KelseyD : ℝ) * r⌉⟩,
   ⟨n1FleissD, ⌈(n1FleissD : ℝ) * r⌉, n1FleissD + ⌈(n1FleissD : ℝ) * r⌉⟩,
   ⟨n1FleissCCD, ⌈(n1FleissCCD : ℝ) * r⌉, n1FleissCCD + ⌈(n1FleissCCD : ℝ) * r⌉⟩⟩

/-- Return value of the case-control calculator (lines 183-233): the
`OR≈1` early return (`n: 0, table: null` — no group counts), the
`P1 > 0.999` early return (`n: 'Error', table: null` — no group
counts), or the full result together with the visual group counts
(`visualData.n1 = fleiss.n2` controls, `visualData.n2 = fleiss.n1`
cases). -/
inductive CCResult where
  | infiniteSampleSize
  | impossibleInputs
  | ok (table : AdvancedResults) (visN1 visN2 : ℤ)

/-- Return value of the cohort and randomized-trial calculators: the
equal-proportions early return (`n: 'Error', table: null`), or the full
result with the visual group counts. -/
inductive ModeResult where
  | equalProportions
  | ok (table : AdvancedResults) (visN1 visN2 : ℤ)

/-- Case-control calculator `MODES['case-control'].calc`
(lines 183-233): derive `P1` from the odds ratio, guard `|OR-1| < 0.001`
(infinite sample size) and `P1 > 0.999` (impossible inputs), otherwise
delegate to `calculateAdvanced(P1, P0, r, …)`.  Display strings and the
`RR`-style diagnostics are UI-only and omitted. -/
def caseControlCalc (p_controls orVal r0 : ℚ) (power conf : ℕ)
    (dropout : Bool) : CCResult :=
  let P0 : ℚ := p_controls / 100
  let r : ℚ := if r0 = 0 then 1 else r0
  let conf2 : ℕ := if conf = 0 then 95 else conf
  let alpha : ℚ := (100 - (conf2 : ℚ)) / 100
  let beta : ℚ := (100 - (power : ℚ)) / 100
  if |orVal - 1| < 0.001 then CCResult.infiniteSampleSize
  else
    if orVal * P0 / (1 + P0 * (orVal - 1)) > 0.999 then CCResult.impossibleInputs
    else
      let results :=
        calculateAdvanced ((orVal * P0 / (1 + P0 * (orVal - 1)) : ℚ) : ℝ)
          ((P0 : ℚ) : ℝ) ((r : ℚ) : ℝ) alpha beta dropout
      CCResult.ok results results.fleiss.n2 results.fleiss.n1

/-- Cohort calculator `MODES['cohort'].calc` (lines 273-307): reject
nearly equal proportions, otherwise delegate to
`calculateAdvanced(P1, P2, r, …)` with `P1` the exposed and `P2` the
unexposed incidence; visual counts are `fleiss.n2` (unexposed) and
`fleiss.n1` (exposed). -/
def cohortCalc (p_unexposed p_exposed r0 : ℚ) (power conf : ℕ)
    (dropout : Bool) : ModeResult :=
  let P2 : ℚ := p_unexposed / 100
  let P1 : ℚ := p_exposed / 100
  let r : ℚ := if r0 = 0 then 1 else r0
  let conf2 : ℕ := if conf = 0 then 95 else conf
  let alpha : ℚ := (100 - (conf2 : ℚ)) / 100
  let beta : ℚ := (100 - (power : ℚ)) / 100
  if |P1 - P2| < 0.0001 then ModeResult.equalProportions
  else
    let results :=
      calculateAdvanced ((P1 : ℚ) : ℝ) ((P2 : ℚ) : ℝ) ((r : ℚ) : ℝ) alpha beta dropout
    ModeResult.ok results results.fleiss.n2 results.fleiss.n1

/-- Randomized-trial calculator `MODES['rct'].calc` (lines 347-403):
reject nearly equal proportions, otherwise delegate to
`calculateAdvanced(P2, P1, r, …)` — group 2 passed first, as the source
comments derive, so that the pooled average aligns with the ratio
definition `r = N1/N2`; the estimator's `n1` is labelled group 2 and
its `n2` group 1. -/
def rctCalc (pct1 pct2 r0 : ℚ) (power conf : ℕ) (dropout : Bool) :
    ModeResult :=
  let P1 : ℚ := pct1 / 100
  let P2 : ℚ := pct2 / 100
  let r : ℚ := if r0 = 0 then 1 else r0
  let conf2 : ℕ := if conf = 0 then 95 else conf
  let alpha : ℚ := (100 - (conf2 : ℚ)) / 100
  let beta : ℚ := (100 - (power : ℚ)) / 100
  if |P1 - P2| < 0.0001 then ModeResult.equalProportions
  else
    let results :=
      calculateAdvanced ((P2 : ℚ) : ℝ) ((P1 : ℚ) : ℝ) ((r : ℚ) : ℝ) alpha beta dropout
    ModeResult.ok results results.fleiss.n2 results.fleiss.n1

end

/-- On a list sorted in descending order, `List.find?` returns the
greatest element satisfying the predicate: helper for the preset-size
scan of `packGrid`. -/
theorem find_first_largest (p : ℕ → Bool) (l : List ℕ) :
    (l.Pairwise fun a b => b ≤ a) → ∀ s : ℕ, l.find? p = some s →
      ∀ t ∈ l, p t = true → t ≤ s := by
  induction l with
  | nil => intro _ s hs; simp at hs
  | cons a tl ih =>
    intro hl s hs t ht hpt
    rcases List.pairwise_cons.mp hl with ⟨ha, htl⟩
    by_cases hpa : p a = true
    · rw [List.find?_cons_of_pos _ hpa] at hs
      have hsa : a = s := Option.some.inj hs
      rcases List.mem_cons.mp ht with h | h
      · exact h ▸ hsa ▸ le_refl a
      · exact hsa ▸ ha t h
    · rw [List.find?_cons_of_neg _ hpa] at hs
      rcases List.mem_cons.mp ht with h | h
      · exact absurd (h ▸ hpt) hpa
      · exact ih htl s hs t h hpt

/-- The preset sizes are sorted in descending order. -/
theorem PRESET_SIZES_sorted : PRESET_SIZES.Pairwise fun a b => b ≤ a := by
  decide

/-- C3: the prevalence calculator computes the raw `4·P·Q/D²`, applies
the finite-population correction only when the flag is set and the
population is positive, then the dropout inflation, and only then
rounds up; `P = 50%, D = 5%` gives 400 plain, 286 with FPC at
population 1000, and 445 with dropout only. -/
theorem prevalenceCalc_spec :
    (∀ prevalence precision : ℚ, ∀ fpc dropout : Bool, ∀ popSize : ℤ,
      prevalenceCalc prevalence precision fpc dropout popSize =
        ⌈(let n0 := 4 * (prevalence / 100) * (1 - prevalence / 100) /
              ((precision / 100) * (precision / 100));
          let n1 := if fpc = true ∧ 0 < popSize then
              n0 / (1 + n0 / (popSize : ℚ)) else n0;
          if dropout then n1 / 0.9 else n1)⌉)
    ∧ prevalenceCalc 50 5 false false 0 = 400
    ∧ prevalenceCalc 50 5 true false 1000 = 286
    ∧ prevalenceCalc 50 5 false true 0 = 445 := by
  refine ⟨fun prevalence precision fpc dropout popSize => rfl, ?_, ?_, ?_⟩
  · simp only [prevalenceCalc]
    norm_num
  · simp only [prevalenceCalc]
    norm_num [Int.ceil_eq_iff]
  · simp only [prevalenceCalc]
    norm_num [Int.ceil_eq_iff]

/-- C7: the grid packer selects the largest preset cell size whose
capacity holds `max n1 n2` (with scale 1); when even the smallest
preset does not fit, it fixes cell size 3 and scale
`ceil(maxN / capacity(3))`; and it is deterministic. -/
theorem packGrid_selects_best (n1 n2 : ℕ) (groupW groupH : ℚ)
    (hW : 0 < groupW) (hH : 0 < groupH) :
    (∀ t ∈ PRESET_SIZES, max (n1 : ℤ) (n2 : ℤ) ≤ getCapacity groupW groupH t →
        t ≤ (packGrid n1 n2 groupW groupH).bestCellSize)
    ∧ ((∃ s ∈ PRESET_SIZES, max (n1 : ℤ) (n2 : ℤ) ≤ getCapacity groupW groupH s) →
        (packGrid n1 n2 groupW groupH).bestCellSize ∈ PRESET_SIZES ∧
        max (n1 : ℤ) (n2 : ℤ) ≤
          getCapacity groupW groupH (packGrid n1 n2 groupW groupH).bestCellSize ∧
        (packGrid n1 n2 groupW groupH).scale = 1)
    ∧ ((∀ s ∈ PRESET_SIZES, ¬ max (n1 : ℤ) (n2 : ℤ) ≤ getCapacity groupW groupH s) →
        (packGrid n1 n2 groupW groupH).bestCellSize = 3 ∧
        (packGrid n1 n2 groupW groupH).scale =
          ⌈((max (n1 : ℤ) (n2 : ℤ) : ℤ) : ℚ) / ((getCapacity groupW groupH 3 : ℤ) : ℚ)⌉)
    ∧ packGrid n1 n2 groupW groupH = packGrid n1 n2 groupW groupH := by
  cases hfind : PRESET_SIZES.find? fun s =>
      decide (max (n1 : ℤ) (n2 : ℤ) ≤ getCapacity groupW groupH s) with
  | some s =>
    have hbest : (packGrid n1 n2 groupW groupH).bestCellSize = s := by
      simp only [packGrid, hfind, Option.getD_some]
    have hscale : (packGrid n1 n2 groupW groupH).scale = 1 := by
      simp only [packGrid, hfind]
    refine ⟨?_, ?_, ?_, rfl⟩
    · intro t ht hcap
      rw [hbest]
      exact find_first_largest _ _ PRESET_SIZES_sorted s hfind t ht
        (decide_eq_true hcap)
    · intro _
      have hps := List.find?_some hfind
      simp only [decide_eq_true_eq] at hps
      refine ⟨?_, ?_, hscale⟩
      · rw [hbest]; exact List.mem_of_find?_eq_some hfind
      · rw [hbest]; exact hps
    · intro hnone
      have hps := List.find?_some hfind
      simp only [decide_eq_true_eq] at hps
      exact absurd hps (hnone s (List.mem_of_find?_eq_some hfind))
  | none =>
    have hbest : (packGrid n1 n2 groupW groupH).bestCellSize = 3 := by
      simp only [packGrid, hfind, Option.getD_none]
    have hscale : (packGrid n1 n2 groupW groupH).scale =
        ⌈((max (n1 : ℤ) (n2 : ℤ) : ℤ) : ℚ) / ((getCapacity groupW groupH 3 : ℤ) : ℚ)⌉ := by
      simp only [packGrid, hfind]
    refine ⟨?_, ?_, ?_, rfl⟩
    · intro t ht hcap
      exact absurd (decide_eq_true hcap) (List.find?_eq_none.mp hfind t ht)
    · rintro ⟨s, hs, hcap⟩
      exact absurd (decide_eq_true hcap) (List.find?_eq_none.mp hfind s hs)
    · intro _
      exact ⟨hbest, hscale⟩

/-- C8: the packer's outputs satisfy `sN1 = ceil(n1/scale)` and
`sN2 = ceil(n2/scale)`; at scale 1 they round-trip to the original
counts; and whenever scaling kicks in (`scale > 1`), the scaled count
of the larger group does not exceed the 3-pixel capacity. -/
theorem packGrid_scaled_counts (n1 n2 : ℕ) (groupW groupH : ℚ) :
    ((packGrid n1 n2 groupW groupH).sN1 =
        ⌈(n1 : ℚ) / (((packGrid n1 n2 groupW groupH).scale : ℤ) : ℚ)⌉ ∧
      (packGrid n1 n2 groupW groupH).sN2 =
        ⌈(n2 : ℚ) / (((packGrid n1 n2 groupW groupH).scale : ℤ) : ℚ)⌉)
    ∧ ((packGrid n1 n2 groupW groupH).scale = 1 →
        (packGrid n1 n2 groupW groupH).sN1 = (n1 : ℤ) ∧
        (packGrid n1 n2 groupW groupH).sN2 = (n2 : ℤ))
    ∧ (1 < (packGrid n1 n2 groupW groupH).scale →
        max (packGrid n1 n2 groupW groupH).sN1 (packGrid n1 n2 groupW groupH).sN2 ≤
          getCapacity groupW groupH 3) := by
  have hform :
      ((packGrid n1 n2 groupW groupH).sN1 =
        ⌈(n1 : ℚ) / (((packGrid n1 n2 groupW groupH).scale : ℤ) : ℚ)⌉ ∧
      (packGrid n1 n2 groupW groupH).sN2 =
        ⌈(n2 : ℚ) / (((packGrid n1 n2 groupW groupH).scale : ℤ) : ℚ)⌉) := by
    cases hfind : PRESET_SIZES.find? fun s =>
        decide (max (n1 : ℤ) (n2 : ℤ) ≤ getCapacity groupW groupH s) with
    | some s => exact ⟨by simp only [packGrid, hfind], by simp only [packGrid, hfind]⟩
    | none => exact ⟨by simp only [packGrid, hfind], by simp only [packGrid, hfind]⟩
  refine ⟨hform, ?_, ?_⟩
  · intro h1
    rw [hform.1, hform.2, h1]
    norm_num
  · intro hgt
    cases hfind : PRESET_SIZES.find? fun s =>
        decide (max (n1 : ℤ) (n2 : ℤ) ≤ getCapacity groupW groupH s) with
    | some s =>
      have : (packGrid n1 n2 groupW groupH).scale = 1 := by
        simp only [packGrid, hfind]
      omega
    | none =>
      have hscale : (packGrid n1 n2 groupW groupH).scale =
          ⌈((max (n1 : ℤ) (n2 : ℤ) : ℤ) : ℚ) / ((getCapacity groupW groupH 3 : ℤ) : ℚ)⌉ := by
        simp only [packGrid, hfind]
      set c : ℤ := getCapacity groupW groupH 3 with hc
      set m : ℤ := max (n1 : ℤ) (n2 : ℤ) with hm
      have hm0 : (0 : ℤ) ≤ m := le_trans (Int.ofNat_nonneg n1) (le_max_left _ _)
      have hcpos : 0 < c := by
        by_contra hcle
        push_neg at hcle
        have hdiv : ((m : ℤ) : ℚ) / ((c : ℤ) : ℚ) ≤ 0 := by
          rcases lt_or_eq_of_le hcle with hlt | heq
          · apply div_nonpos_of_nonneg_of_nonpos
            · exact_mod_cast hm0
            · exact_mod_cast le_of_lt hlt
          · rw [heq]
            norm_num
        have : (packGrid n1 n2 groupW groupH).scale ≤ 0 := by
          rw [hscale]
          exact Int.ceil_le.mpr (by exact_mod_cast hdiv)
        omega
      have hscale_pos : 0 < (packGrid n1 n2 groupW groupH).scale := lt_trans one_pos hgt
      have hle1 : ((m : ℤ) : ℚ) / ((c : ℤ) : ℚ) ≤ ((packGrid n1 n2 groupW groupH).scale : ℚ) := by
        rw [hscale]
        exact Int.le_ceil _
      have hcQ : (0 : ℚ) < ((c : ℤ) : ℚ) := by exact_mod_cast hcpos
      have hsQ : (0 : ℚ) < ((packGrid n1 n2 groupW groupH).scale : ℚ) := by exact_mod_cast hscale_pos
      have hmc : ((m : ℤ) : ℚ) ≤ ((packGrid n1 n2 groupW groupH).scale : ℚ) * ((c : ℤ) : ℚ) :=
        (div_le_iff hcQ).mp hle1
      have hdiv2 : ((m : ℤ) : ℚ) / ((packGrid n1 n2 groupW groupH).scale : ℚ) ≤ ((c : ℤ) : ℚ) := by
        rw [div_le_iff hsQ]
        linarith [hmc]
      have hceil : ⌈((m : ℤ) : ℚ) / ((packGrid n1 n2 groupW groupH).scale : ℚ)⌉ ≤ c :=
        Int.ceil_le.mpr hdiv2
      have hn1m : ((n1 : ℚ)) ≤ ((m : ℤ) : ℚ) := by
        have : (n1 : ℤ) ≤ m := le_max_left _ _
        exact_mod_cast this
      have hn2m : ((n2 : ℚ)) ≤ ((m : ℤ) : ℚ) := by
        have : (n2 : ℤ) ≤ m := le_max_right _ _
        exact_mod_cast this
      have hb1 : (packGrid n1 n2 groupW groupH).sN1 ≤ c := by
        rw [hform.1]
        exact le_trans (Int.ceil_le_ceil ((div_le_div_right hsQ).mpr hn1m)) hceil
      have hb2 : (packGrid n1 n2 groupW groupH).sN2 ≤ c := by
        rw [hform.2]
        exact le_trans (Int.ceil_le_ceil ((div_le_div_right hsQ).mpr hn2m)) hceil
      exact max_le hb1 hb2

/-- At a 500×400 area a 20-pixel cell gives 25·20 = 500 dots. -/
theorem getCapacity_500_400_20 : getCapacity 500 400 20 = 500 := by
  simp only [getCapacity]
  rw [show ((20 : ℕ) : ℚ) = 20 by norm_num,
      show (500 : ℚ) / 20 = ((25 : ℤ) : ℚ) by norm_num,
      show (400 : ℚ) / 20 = ((20 : ℤ) : ℚ) by norm_num,
      Int.floor_intCast, Int.floor_intCast]
  norm_num

/-- At a tiny 3×3 area every cell size above 3 pixels has capacity 0. -/
theorem getCapacity_3_3_zero (s : ℕ) (hs : 3 < s) : getCapacity 3 3 s = 0 := by
  have hsQ : (3 : ℚ) < (s : ℚ) := by exact_mod_cast hs
  have h0 : (0 : ℚ) < (s : ℚ) := lt_trans (by norm_num) hsQ
  have hfl : ⌊(3 : ℚ) / (s : ℚ)⌋ = 0 := by
    rw [Int.floor_eq_iff]
    constructor
    · positivity
    · have hlt : (3 : ℚ) / (s : ℚ) < 1 := (div_lt_one h0).mpr hsQ
      push_cast
      linarith
  simp [getCapacity, hfl]

/-- At a 3×3 area the 3-pixel cell has capacity 1. -/
theorem getCapacity_3_3_3 : getCapacity 3 3 3 = 1 := by
  simp only [getCapacity]
  rw [show ((3 : ℕ) : ℚ) = 3 by norm_num,
      show (3 : ℚ) / 3 = ((1 : ℤ) : ℚ) by norm_num, Int.floor_intCast]
  norm_num

/-- With 100000 participants on a 3×3 area no preset size fits, so the
fallback scale `ceil(100000 / 1) = 100000` is used. -/
theorem packGrid_100000_scale : (packGrid 100000 50 3 3).scale = 100000 := by
  have hnone : (PRESET_SIZES.find? fun s =>
      decide (max ((100000 : ℕ) : ℤ) ((50 : ℕ) : ℤ) ≤ getCapacity 3 3 s)) = none := by
    rw [List.find?_eq_none]
    intro s hs
    simp only [PRESET_SIZES] at hs
    simp only [decide_eq_true_eq]
    fin_cases hs
    · rw [getCapacity_3_3_zero 20 (by norm_num)]; decide
    · rw [getCapacity_3_3_zero 15 (by norm_num)]; decide
    · rw [getCapacity_3_3_zero 12 (by norm_num)]; decide
    · rw [getCapacity_3_3_zero 10 (by norm_num)]; decide
    · rw [getCapacity_3_3_zero 8 (by norm_num)]; decide
    · rw [getCapacity_3_3_zero 6 (by norm_num)]; decide
    · rw [getCapacity_3_3_zero 5 (by norm_num)]; decide
    · rw [getCapacity_3_3_zero 4 (by norm_num)]; decide
    · rw [getCapacity_3_3_3]; decide
  have hmax : max ((100000 : ℕ) : ℤ) ((50 : ℕ) : ℤ) = 100000 := by decide
  simp only [packGrid]
  rw [hnone]
  show (⌈((max ((100000 : ℕ) : ℤ) ((50 : ℕ) : ℤ) : ℤ) : ℚ) /
      ((getCapacity 3 3 3 : ℤ) : ℚ)⌉ : ℤ) = 100000
  rw [hmax, getCapacity_3_3_3]
  rw [show ((100000 : ℤ) : ℚ) / ((1 : ℤ) : ℚ) = ((100000 : ℤ) : ℚ) by norm_num,
      Int.ceil_intCast]

/-- C7 witness: with 50 dots per group on a 500×400 area, a fitting
preset exists (20 px holds 500 dots) and the packer returns a preset
size with scale 1. -/
theorem packGrid_selects_best_witness :
    (packGrid 50 50 500 400).bestCellSize ∈ PRESET_SIZES ∧
    max ((50 : ℕ) : ℤ) ((50 : ℕ) : ℤ) ≤
      getCapacity 500 400 (packGrid 50 50 500 400).bestCellSize ∧
    (packGrid 50 50 500 400).scale = 1 :=
  (packGrid_selects_best 50 50 500 400 (by norm_num) (by norm_num)).2.1
    ⟨20, by decide, by rw [getCapacity_500_400_20]; decide⟩

/-- C8 witness: with 100000 participants on a 3×3 area the packer
scales (scale 100000 > 1) and the scaled count of the larger group is
bounded by the 3-pixel capacity. -/
theorem packGrid_scaled_counts_witness :
    1 < (packGrid 100000 50 3 3).scale ∧
    max (packGrid 100000 50 3 3).sN1 (packGrid 100000 50 3 3).sN2 ≤
      getCapacity 3 3 3 := by
  have h : 1 < (packGrid 100000 50 3 3).scale := by
    rw [packGrid_100000_scale]; norm_num
  exact ⟨h, (packGrid_scaled_counts 100000 50 3 3).2.2 h⟩

/-- C6: `getZBeta` returns the exact tabulated quantile for every
integer power 80–99 and the default 0.842 outside the table;
`getZAlpha` returns the four exact values and otherwise the banded
approximation (below 95 → 1.645, below 98 → 1.96, below 99 → 2.326,
else 2.576). -/
theorem zTables_spec :
    (getZBeta 80 = 0.842 ∧
      getZBeta 81 = 0.878 ∧
      getZBeta 82 = 0.915 ∧
      getZBeta 83 = 0.954 ∧
      getZBeta 84 = 0.994 ∧
      getZBeta 85 = 1.036 ∧
      getZBeta 86 = 1.080 ∧
      getZBeta 87 = 1.126 ∧
      getZBeta 88 = 1.175 ∧
      getZBeta 89 = 1.227 ∧
      getZBeta 90 = 1.282 ∧
      getZBeta 91 = 1.341 ∧
      getZBeta 92 = 1.405 ∧
      getZBeta 93 = 1.476 ∧
      getZBeta 94 = 1.555 ∧
      getZBeta 95 = 1.645 ∧
      getZBeta 96 = 1.751 ∧
      getZBeta 97 = 1.881 ∧
      getZBeta 98 = 2.054 ∧
      getZBeta 99 = 2.326)
    ∧ (∀ n : ℤ, n < 80 ∨ 99 < n → getZBeta (n : ℚ) = 0.842)
    ∧ (getZAlpha 90 = 1.645 ∧ getZAlpha 95 = 1.96 ∧
       getZAlpha 98 = 2.326 ∧ getZAlpha 99 = 2.576)
    ∧ (∀ n : ℤ, n ≠ 90 → n ≠ 95 → n ≠ 98 → n ≠ 99 →
        ((n < 95 → getZAlpha (n : ℚ) = 1.645) ∧
         (95 ≤ n → n < 98 → getZAlpha (n : ℚ) = 1.96) ∧
         (98 ≤ n → n < 99 → getZAlpha (n : ℚ) = 2.326) ∧
         (99 ≤ n → getZAlpha (n : ℚ) = 2.576))) := by
  refine ⟨?_, ?_, ?_, ?_⟩
  · norm_num [getZBeta]
  · intro n hn
    have h80 : ¬ ((n : ℚ) = 80) := fun h => by
      have hn2 : n = 80 := by exact_mod_cast h
      omega
    have h81 : ¬ ((n : ℚ) = 81) := fun h => by
      have hn2 : n = 81 := by exact_mod_cast h
      omega
    have h82 : ¬ ((n : ℚ) = 82) := fun h => by
      have hn2 : n = 82 := by exact_mod_cast h
      omega
    have h83 : ¬ ((n : ℚ) = 83) := fun h => by
      have hn2 : n = 83 := by exact_mod_cast h
      omega
    have h84 : ¬ ((n : ℚ) = 84) := fun h => by
      have hn2 : n = 84 := by exact_mod_cast h
      omega
    have h85 : ¬ ((n : ℚ) = 85) := fun h => by
      have hn2 : n = 85 := by exact_mod_cast h
      omega
    have h86 : ¬ ((n : ℚ) = 86) := fun h => by
      have hn2 : n = 86 := by exact_mod_cast h
      omega
    have h87 : ¬ ((n : ℚ) = 87) := fun h => by
      have hn2 : n = 87 := by exact_mod_cast h
      omega
    have h88 : ¬ ((n : ℚ) = 88) := fun h => by
      have hn2 : n = 88 := by exact_mod_cast h
      omega
    have h89 : ¬ ((n : ℚ) = 89) := fun h => by
      have hn2 : n = 89 := by exact_mod_cast h
      omega
    have h90 : ¬ ((n : ℚ) = 90) := fun h => by
      have hn2 : n = 90 := by exact_mod_cast h
      omega
    have h91 : ¬ ((n : ℚ) = 91) := fun h => by
      have hn2 : n = 91 := by exact_mod_cast h
      omega
    have h92 : ¬ ((n : ℚ) = 92) := fun h => by
      have hn2 : n = 92 := by exact_mod_cast h
      omega
    have h93 : ¬ ((n : ℚ) = 93) := fun h => by
      have hn2 : n = 93 := by exact_mod_cast h
      omega
    have h94 : ¬ ((n : ℚ) = 94) := fun h => by
      have hn2 : n = 94 := by exact_mod_cast h
      omega
    have h95 : ¬ ((n : ℚ) = 95) := fun h => by
      have hn2 : n = 95 := by exact_mod_cast h
      omega
    have h96 : ¬ ((n : ℚ) = 96) := fun h => by
      have hn2 : n = 96 := by exact_mod_cast h
      omega
    have h97 : ¬ ((n : ℚ) = 97) := fun h => by
      have hn2 : n = 97 := by exact_mod_cast h
      omega
    have h98 : ¬ ((n : ℚ) = 98) := fun h => by
      have hn2 : n = 98 := by exact_mod_cast h
      omega
    have h99 : ¬ ((n : ℚ) = 99) := fun h => by
      have hn2 : n = 99 := by exact_mod_cast h
      omega
    simp only [getZBeta]
    rw [if_neg h80, if_neg h81, if_neg h82, if_neg h83, if_neg h84, if_neg h85, if_neg h86, if_neg h87, if_neg h88, if_neg h89, if_neg h90, if_neg h91, if_neg h92, if_neg h93, if_neg h94, if_neg h95, if_neg h96, if_neg h97, if_neg h98, if_neg h99]
  · norm_num [getZAlpha]
  · intro n h90 h95 h98 h99
    have hq90 : ¬ ((n : ℚ) = 90) := fun h => h90 (by exact_mod_cast h)
    have hq95 : ¬ ((n : ℚ) = 95) := fun h => h95 (by exact_mod_cast h)
    have hq98 : ¬ ((n : ℚ) = 98) := fun h => h98 (by exact_mod_cast h)
    have hq99 : ¬ ((n : ℚ) = 99) := fun h => h99 (by exact_mod_cast h)
    refine ⟨?_, ?_, ?_, ?_⟩
    · intro hlt
      have hc : (n : ℚ) < 95 := by exact_mod_cast hlt
      simp only [getZAlpha]
      rw [if_neg hq90, if_neg hq95, if_neg hq98, if_neg hq99, if_pos hc]
    · intro hge hlt
      have hc1 : ¬ ((n : ℚ) < 95) := by push_neg; exact_mod_cast hge
      have hc2 : (n : ℚ) < 98 := by exact_mod_cast hlt
      simp only [getZAlpha]
      rw [if_neg hq90, if_neg hq95, if_neg hq98, if_neg hq99, if_neg hc1, if_pos hc2]
    · intro hge hlt
      have hc1 : ¬ ((n : ℚ) < 95) := by push_neg; exact_mod_cast (by omega : (95:ℤ) ≤ n)
      have hc2 : ¬ ((n : ℚ) < 98) := by push_neg; exact_mod_cast hge
      have hc3 : (n : ℚ) < 99 := by exact_mod_cast hlt
      simp only [getZAlpha]
      rw [if_neg hq90, if_neg hq95, if_neg hq98, if_neg hq99, if_neg hc1, if_neg hc2,
        if_pos hc3]
    · intro hge
      have hc1 : ¬ ((n : ℚ) < 95) := by push_neg; exact_mod_cast (by omega : (95:ℤ) ≤ n)
      have hc2 : ¬ ((n : ℚ) < 98) := by push_neg; exact_mod_cast (by omega : (98:ℤ) ≤ n)
      have hc3 : ¬ ((n : ℚ) < 99) := by push_neg; exact_mod_cast hge
      simp only [getZAlpha]
      rw [if_neg hq90, if_neg hq95, if_neg hq98, if_neg hq99, if_neg hc1, if_neg hc2,
        if_neg hc3]

/-- C6 witness: power 100 lies outside the table and falls back to
0.842; confidence 93 is not an exact key and lands in the lowest band. -/
theorem zTables_spec_witness :
    getZBeta ((100 : ℤ) : ℚ) = 0.842 ∧ getZAlpha ((93 : ℤ) : ℚ) = 1.645 :=
  ⟨zTables_spec.2.1 100 (Or.inr (by norm_num)),
   (zTables_spec.2.2.2 93 (by norm_num) (by norm_num) (by norm_num) (by norm_num)).1
     (by norm_num)⟩

/-- C1: for proportions in (0,1) with `p1 ≠ p2` and ratio `r > 0`, the
Kelsey estimate of `calculateAdvanced` is
`ceil((za+zb)²·pAvg(1-pAvg)·(r+1) / (r·(p1-p2)²))` with the z-scores
from the lookup tables, replaced by `ceil(n1/0.9)` when dropout is on,
and `n2 = ceil(n1·r)`, `total = n1 + n2`. -/
theorem calculateAdvanced_kelsey_spec (p1 p2 r0 : ℝ) (alpha beta : ℚ)
    (dropout : Bool) (hp1a : 0 < p1) (hp1b : p1 < 1) (hp2a : 0 < p2)
    (hp2b : p2 < 1) (hne : p1 ≠ p2) (hr : 0 < r0) :
    (calculateAdvanced p1 p2 r0 alpha beta dropout).kelsey =
      (let za : ℝ := ((getZAlpha ((1 - alpha) * 100) : ℚ) : ℝ)
       let zb : ℝ := ((getZBeta ((1 - beta) * 100) : ℚ) : ℝ)
       let base : ℤ := ⌈(za + zb) ^ 2 * (p_avg p1 p2 r0 * (1 - p_avg p1 p2 r0)) *
           (r0 + 1) / (r0 * (p1 - p2) ^ 2)⌉
       let n1 : ℤ := if dropout then ⌈(base : ℝ) / 0.9⌉ else base
       ⟨n1, ⌈(n1 : ℝ) * r0⌉, n1 + ⌈(n1 : ℝ) * r0⌉⟩) := by
  simp only [calculateAdvanced, if_neg hr.ne']

/-- C1 witness: the Kelsey specification at `p1 = 3/5`, `p2 = 1/2`,
ratio 1, `alpha = 0.05`, `beta = 0.2`, no dropout. -/
theorem calculateAdvanced_kelsey_spec_witness :
    (calculateAdvanced (3 / 5) (1 / 2) 1 0.05 0.2 false).kelsey =
      (let za : ℝ := ((getZAlpha ((1 - (0.05 : ℚ)) * 100) : ℚ) : ℝ)
       let zb : ℝ := ((getZBeta ((1 - (0.2 : ℚ)) * 100) : ℚ) : ℝ)
       let base : ℤ := ⌈(za + zb) ^ 2 *
           (p_avg (3 / 5) (1 / 2) 1 * (1 - p_avg (3 / 5) (1 / 2) 1)) *
           (1 + 1) / (1 * ((3 / 5 : ℝ) - 1 / 2) ^ 2)⌉
       let n1 : ℤ := if false then ⌈(base : ℝ) / 0.9⌉ else base
       ⟨n1, ⌈(n1 : ℝ) * 1⌉, n1 + ⌈(n1 : ℝ) * 1⌉⟩) :=
  calculateAdvanced_kelsey_spec (3 / 5) (1 / 2) 1 0.05 0.2 false
    (by norm_num) (by norm_num) (by norm_num) (by norm_num) (by norm_num)
    (by norm_num)

/-- C2: for proportions in (0,1) with `p1 ≠ p2` and ratio `r > 0`, the
Fleiss estimate of `calculateAdvanced` is
`ceil((term1+term2)² / (r·(p1-p2)²))` with
`term1 = za·√((r+1)·pAvg(1-pAvg))` and
`term2 = zb·√(r·p1(1-p1) + p2(1-p2))`, and the continuity-corrected
estimate is computed from the unrounded ratio
`n1Raw = (term1+term2)²/(r·(p1-p2)²)` as
`ceil((n1Raw/4)·(1+√(1+2(r+1)/(n1Raw·r·|p1-p2|)))²)`; `n2` and `total`
are derived from each `n1` as for Kelsey. -/
theorem calculateAdvanced_fleiss_spec (p1 p2 r0 : ℝ) (alpha beta : ℚ)
    (dropout : Bool) (hp1a : 0 < p1) (hp1b : p1 < 1) (hp2a : 0 < p2)
    (hp2b : p2 < 1) (hne : p1 ≠ p2) (hr : 0 < r0) :
    ((calculateAdvanced p1 p2 r0 alpha beta dropout).fleiss =
      (let za : ℝ := ((getZAlpha ((1 - alpha) * 100) : ℚ) : ℝ)
       let zb : ℝ := ((getZBeta ((1 - beta) * 100) : ℚ) : ℝ)
       let term1 : ℝ := za * Real.sqrt ((r0 + 1) *
           (p_avg p1 p2 r0 * (1 - p_avg p1 p2 r0)))
       let term2 : ℝ := zb * Real.sqrt (r0 * (p1 * (1 - p1)) + p2 * (1 - p2))
       let base : ℤ := ⌈(term1 + term2) ^ 2 / (r0 * (p1 - p2) ^ 2)⌉
       let n1 : ℤ := if dropout then ⌈(base : ℝ) / 0.9⌉ else base
       ⟨n1, ⌈(n1 : ℝ) * r0⌉, n1 + ⌈(n1 : ℝ) * r0⌉⟩))
    ∧ ((calculateAdvanced p1 p2 r0 alpha beta dropout).fleiss_cc =
      (let za : ℝ := ((getZAlpha ((1 - alpha) * 100) : ℚ) : ℝ)
       let zb : ℝ := ((getZBeta ((1 - beta) * 100) : ℚ) : ℝ)
       let term1 : ℝ := za * Real.sqrt ((r0 + 1) *
           (p_avg p1 p2 r0 * (1 - p_avg p1 p2 r0)))
       let term2 : ℝ := zb * Real.sqrt (r0 * (p1 * (1 - p1)) + p2 * (1 - p2))
       let n1Raw : ℝ := (term1 + term2) ^ 2 / (r0 * (p1 - p2) ^ 2)
       let base : ℤ := ⌈n1Raw / 4 *
           (1 + Real.sqrt (1 + 2 * (r0 + 1) / (n1Raw * r0 * |p1 - p2|))) ^ 2⌉
       let n1 : ℤ := if dropout then ⌈(base : ℝ) / 0.9⌉ else base
       ⟨n1, ⌈(n1 : ℝ) * r0⌉, n1 + ⌈(n1 : ℝ) * r0⌉⟩)) := by
  constructor
  · simp only [calculateAdvanced, if_neg hr.ne']
  · simp only [calculateAdvanced, if_neg hr.ne']

/-- C2 witness: the Fleiss specification at `p1 = 3/5`, `p2 = 2/5`,
ratio 2, `alpha = 0.05`, `beta = 0.2`, with dropout enabled. -/
theorem calculateAdvanced_fleiss_spec_witness :
    (calculateAdvanced (3 / 5) (2 / 5) 2 0.05 0.2 true).fleiss =
      (let za : ℝ := ((getZAlpha ((1 - (0.05 : ℚ)) * 100) : ℚ) : ℝ)
       let zb : ℝ := ((getZBeta ((1 - (0.2 : ℚ)) * 100) : ℚ) : ℝ)
       let term1 : ℝ := za * Real.sqrt ((2 + 1) *
           (p_avg (3 / 5) (2 / 5) 2 * (1 - p_avg (3 / 5) (2 / 5) 2)))
       let term2 : ℝ := zb * Real.sqrt (2 * ((3 / 5 : ℝ) * (1 - 3 / 5)) +
           (2 / 5 : ℝ) * (1 - 2 / 5))
       let base : ℤ := ⌈(term1 + term2) ^ 2 / (2 * ((3 / 5 : ℝ) - 2 / 5) ^ 2)⌉
       let n1 : ℤ := if true then ⌈(base : ℝ) / 0.9⌉ else base
       ⟨n1, ⌈(n1 : ℝ) * 2⌉, n1 + ⌈(n1 : ℝ) * 2⌉⟩) :=
  (calculateAdvanced_fleiss_spec (3 / 5) (2 / 5) 2 0.05 0.2 true
    (by norm_num) (by norm_num) (by norm_num) (by norm_num) (by norm_num)
    (by norm_num)).1

/-- C4: the case-control calculator derives
`P1 = OR·P0/(1 + P0·(OR-1))` and returns the infinite-sample-size
result whenever `|OR - 1| < 0.001`, and the impossible-inputs result
whenever the derived `P1` exceeds 0.999; both error constructors carry
no group counts. -/
theorem caseControl_guards (p_controls orVal r0 : ℚ) (power conf : ℕ)
    (dropout : Bool) :
    (|orVal - 1| < 0.001 →
      caseControlCalc p_controls orVal r0 power conf dropout =
        CCResult.infiniteSampleSize)
    ∧ (¬ |orVal - 1| < 0.001 →
      orVal * (p_controls / 100) / (1 + p_controls / 100 * (orVal - 1)) > 0.999 →
      caseControlCalc p_controls orVal r0 power conf dropout =
        CCResult.impossibleInputs) := by
  constructor
  · intro h
    simp only [caseControlCalc, if_pos h]
  · intro h1 h2
    simp only [caseControlCalc, if_neg h1, if_pos h2]

/-- C4 witness: `OR = 1.0005` trips the `|OR-1| < 0.001` guard and
yields the infinite-sample-size result. -/
theorem caseControl_guards_witness :
    |(1.0005 : ℚ) - 1| < 0.001 ∧
    caseControlCalc 30 1.0005 1 80 95 false = CCResult.infiniteSampleSize := by
  have h : |(1.0005 : ℚ) - 1| < 0.001 := by
    rw [show (1.0005 : ℚ) - 1 = 0.0005 by norm_num,
        abs_of_pos (show (0 : ℚ) < 0.0005 by norm_num)]
    norm_num
  exact ⟨h, (caseControl_guards 30 1.0005 1 80 95 false).1 h⟩

/-- C9: the cohort and randomized-trial calculators reject inputs whose
proportions (after percent conversion) differ by less than 0.0001 with
the equal-proportions error, so the estimator — and its division by
`(p1-p2)²` — is never invoked for such inputs. -/
theorem equal_proportions_rejected (pctA pctB r0 : ℚ) (power conf : ℕ)
    (dropout : Bool) (h : |pctA / 100 - pctB / 100| < 0.0001) :
    cohortCalc pctB pctA r0 power conf dropout = ModeResult.equalProportions ∧
    rctCalc pctA pctB r0 power conf dropout = ModeResult.equalProportions := by
  constructor
  · simp only [cohortCalc, if_pos h]
  · simp only [rctCalc, if_pos h]

/-- C9 witness: an RCT (and cohort) input with both proportions 50%
yields the equal-proportions error, not a number. -/
theorem equal_proportions_rejected_witness :
    cohortCalc 50 50 1 80 95 false = ModeResult.equalProportions ∧
    rctCalc 50 50 1 80 95 false = ModeResult.equalProportions :=
  equal_proportions_rejected 50 50 1 80 95 false
    (by rw [show (50 : ℚ) / 100 - 50 / 100 = 0 by norm_num, abs_zero]; norm_num)

/-- C5: for valid inputs the RCT calculator passes `(P2, P1, r)` to the
shared estimator and labels the estimator's `n1` as group 2 and its
`n2` as group 1; under `r = N1/N2` the pooled average used,
`p_avg P2 P1 r`, equals `(N1·P1 + N2·P2)/(N1+N2)`. -/
theorem rct_swaps_arguments (pct1 pct2 r0 : ℚ) (power conf : ℕ)
    (dropout : Bool) (h : ¬ |pct1 / 100 - pct2 / 100| < 0.0001)
    (hr : 0 < r0) (hconf : conf ≠ 0) :
    (rctCalc pct1 pct2 r0 power conf dropout =
      ModeResult.ok
        (calculateAdvanced ((pct2 / 100 : ℚ) : ℝ) ((pct1 / 100 : ℚ) : ℝ)
          ((r0 : ℚ) : ℝ) ((100 - (conf : ℚ)) / 100) ((100 - (power : ℚ)) / 100)
          dropout)
        (calculateAdvanced ((pct2 / 100 : ℚ) : ℝ) ((pct1 / 100 : ℚ) : ℝ)
          ((r0 : ℚ) : ℝ) ((100 - (conf : ℚ)) / 100) ((100 - (power : ℚ)) / 100)
          dropout).fleiss.n2
        (calculateAdvanced ((pct2 / 100 : ℚ) : ℝ) ((pct1 / 100 : ℚ) : ℝ)
          ((r0 : ℚ) : ℝ) ((100 - (conf : ℚ)) / 100) ((100 - (power : ℚ)) / 100)
          dropout).fleiss.n1)
    ∧ (∀ N1 N2 : ℝ, 0 < N2 → N1 = ((r0 : ℚ) : ℝ) * N2 →
        p_avg ((pct2 / 100 : ℚ) : ℝ) ((pct1 / 100 : ℚ) : ℝ) ((r0 : ℚ) : ℝ) =
          (N1 * ((pct1 / 100 : ℚ) : ℝ) + N2 * ((pct2 / 100 : ℚ) : ℝ)) /
            (N1 + N2)) := by
  constructor
  · simp only [rctCalc, if_neg h, if_neg hr.ne', if_neg hconf]
  · intro N1 N2 hN2 hN1
    subst hN1
    have hrR : (0 : ℝ) < ((r0 : ℚ) : ℝ) := by exact_mod_cast hr
    have h1r : (1 : ℝ) + ((r0 : ℚ) : ℝ) ≠ 0 := ne_of_gt (by linarith)
    have hden : ((r0 : ℚ) : ℝ) * N2 + N2 ≠ 0 :=
      ne_of_gt (by nlinarith [mul_pos hrR hN2])
    simp only [p_avg]
    field_simp
    ring

/-- C5 witness: the swap specification at 50% vs 40%, ratio 1,
power 80, confidence 95, instantiating the pooled-average identity at
`N1 = N2 = 2`. -/
theorem rct_swaps_arguments_witness :
    rctCalc 50 40 1 80 95 false =
      ModeResult.ok
        (calculateAdvanced ((40 / 100 : ℚ) : ℝ) ((50 / 100 : ℚ) : ℝ)
          (((1 : ℚ) : ℚ) : ℝ) ((100 - ((95 : ℕ) : ℚ)) / 100)
          ((100 - ((80 : ℕ) : ℚ)) / 100) false)
        (calculateAdvanced ((40 / 100 : ℚ) : ℝ) ((50 / 100 : ℚ) : ℝ)
          (((1 : ℚ) : ℚ) : ℝ) ((100 - ((95 : ℕ) : ℚ)) / 100)
          ((100 - ((80 : ℕ) : ℚ)) / 100) false).fleiss.n2
        (calculateAdvanced ((40 / 100 : ℚ) : ℝ) ((50 / 100 : ℚ) : ℝ)
          (((1 : ℚ) : ℚ) : ℝ) ((100 - ((95 : ℕ) : ℚ)) / 100)
          ((100 - ((80 : ℕ) : ℚ)) / 100) false).fleiss.n1 ∧
    p_avg ((40 / 100 : ℚ) : ℝ) ((50 / 100 : ℚ) : ℝ) (((1 : ℚ) : ℚ) : ℝ) =
      (2 * ((50 / 100 : ℚ) : ℝ) + 2 * ((40 / 100 : ℚ) : ℝ)) / (2 + 2) := by
  have H := rct_swaps_arguments 50 40 1 80 95 false
    (by
      rw [show (50 : ℚ) / 100 - 40 / 100 = 0.1 by norm_num,
          abs_of_pos (show (0 : ℚ) < 0.1 by norm_num)]
      norm_num)
    (by norm_num) (by norm_num)
  exact ⟨H.1, H.2 2 2 (by norm_num) (by norm_num)⟩

/-- C10: for any odds ratio `OR > 0` and control exposure
`p0 ∈ (0,1)`, the derived proportion `OR·p0/(1 + p0·(OR-1))` lies
strictly between 0 and 1 (the denominator is `(1-p0) + p0·OR > 0`);
and for proportions in (0,1) with `r > 0`, each square-root argument of
the Kelsey/Fleiss computation — `(r+1)·pAvg(1-pAvg)`,
`r·p1(1-p1) + p2(1-p2)`, and `1 + ccTerm` — is non-negative. -/
theorem derived_p1_safe :
    (∀ orv p0 : ℝ, 0 < orv → 0 < p0 → p0 < 1 →
      0 < orv * p0 / (1 + p0 * (orv - 1)) ∧
      orv * p0 / (1 + p0 * (orv - 1)) < 1)
    ∧ (∀ p1 p2 r za zb : ℝ, 0 < p1 → p1 < 1 → 0 < p2 → p2 < 1 → 0 < r →
        0 ≤ (r + 1) * (p_avg p1 p2 r * (1 - p_avg p1 p2 r)) ∧
        0 ≤ r * (p1 * (1 - p1)) + p2 * (1 - p2) ∧
        0 ≤ 1 + 2 * (r + 1) /
            ((za * Real.sqrt ((r + 1) * (p_avg p1 p2 r * (1 - p_avg p1 p2 r))) +
              zb * Real.sqrt (r * (p1 * (1 - p1)) + p2 * (1 - p2))) ^ 2 /
              (r * (p1 - p2) ^ 2) * r * |p1 - p2|)) := by
  constructor
  · intro orv p0 ho hp hp1
    have hden : 0 < 1 + p0 * (orv - 1) := by nlinarith
    constructor
    · exact div_pos (mul_pos ho hp) hden
    · rw [div_lt_one hden]
      nlinarith
  · intro p1 p2 r za zb hp1 hp1b hp2 hp2b hrp
    have hpavg0 : 0 < p_avg p1 p2 r := by
      simp only [p_avg]
      apply div_pos
      · nlinarith
      · nlinarith
    have hpavg1 : p_avg p1 p2 r < 1 := by
      simp only [p_avg]
      rw [div_lt_one (by nlinarith)]
      nlinarith
    refine ⟨?_, ?_, ?_⟩
    · exact mul_nonneg (by nlinarith)
        (mul_nonneg hpavg0.le (by nlinarith))
    · exact add_nonneg
        (mul_nonneg hrp.le (mul_nonneg hp1.le (by nlinarith)))
        (mul_nonneg hp2.le (by nlinarith))
    · have hnum : (0 : ℝ) ≤ 2 * (r + 1) := by nlinarith
      have e1 : (0 : ℝ) ≤
          (za * Real.sqrt ((r + 1) * (p_avg p1 p2 r * (1 - p_avg p1 p2 r))) +
            zb * Real.sqrt (r * (p1 * (1 - p1)) + p2 * (1 - p2))) ^ 2 :=
        sq_nonneg _
      have e2 : (0 : ℝ) ≤ r * (p1 - p2) ^ 2 :=
        mul_nonneg hrp.le (sq_nonneg _)
      have e5 : (0 : ℝ) ≤
          (za * Real.sqrt ((r + 1) * (p_avg p1 p2 r * (1 - p_avg p1 p2 r))) +
            zb * Real.sqrt (r * (p1 * (1 - p1)) + p2 * (1 - p2))) ^ 2 /
            (r * (p1 - p2) ^ 2) * r * |p1 - p2| :=
        mul_nonneg (mul_nonneg (div_nonneg e1 e2) hrp.le) (abs_nonneg _)
      have := div_nonneg hnum e5
      linarith

/-- C10 witness: the derivation bound at `OR = 2`, `p0 = 0.3`, and the
square-root-argument bounds at `p1 = 3/5`, `p2 = 1/2`, `r = 1`,
`za = 1.96`, `zb = 0.842`. -/
theorem derived_p1_safe_witness :
    (0 < (2 : ℝ) * 0.3 / (1 + 0.3 * (2 - 1)) ∧
      (2 : ℝ) * 0.3 / (1 + 0.3 * (2 - 1)) < 1)
    ∧ (0 ≤ ((1 : ℝ) + 1) * (p_avg (3 / 5) (1 / 2) 1 * (1 - p_avg (3 / 5) (1 / 2) 1)) ∧
       0 ≤ (1 : ℝ) * ((3 / 5) * (1 - 3 / 5)) + (1 / 2) * (1 - 1 / 2) ∧
       0 ≤ 1 + 2 * ((1 : ℝ) + 1) /
          (((1.96 : ℝ) * Real.sqrt (((1 : ℝ) + 1) *
              (p_avg (3 / 5) (1 / 2) 1 * (1 - p_avg (3 / 5) (1 / 2) 1))) +
            (0.842 : ℝ) * Real.sqrt ((1 : ℝ) * ((3 / 5) * (1 - 3 / 5)) +
              (1 / 2) * (1 - 1 / 2))) ^ 2 /
            ((1 : ℝ) * ((3 / 5 : ℝ) - 1 / 2) ^ 2) * 1 * |(3 / 5 : ℝ) - 1 / 2|)) :=
  ⟨derived_p1_safe.1 2 0.3 (by norm_num) (by norm_num) (by norm_num),
   derived_p1_safe.2 (3 / 5) (1 / 2) 1 1.96 0.842 (by norm_num) (by norm_num)
     (by norm_num) (by norm_num) (by norm_num)⟩
